import Mathlib

/-!
Verification of the cluster-dataset pipeline implemented by the class
`DatasetCreator` in `scripts/develNet/createDataset.py`.

The pipeline turns one LIDAR frame (a point cloud plus labelled 3D bounding
boxes) into per-cluster feature records: ground removal (`filterPcl`),
per-box clustering (`clusterByBBox`), feature extraction
(`computeClusterMetadata`), density-based quality filtering
(`filterMetadata`), orchestrated by `parseFrame`.

Embedding conventions:
* Python floats are embedded as rationals (`ℚ`); the properties below are
  order/algebraic, not bit-level.
* Fallible Python code is embedded with `Except PyExc`; the constructors of
  `PyExc` name the Python exception classes the code can raise.
* Python dicts are embedded as insertion-ordered association lists
  (`List (String × β)`) with `dictFind?` / `dictSet` / `dictKeys`.
* The helpers `remove_groundplane`, `get_pts_in_bbox` and
  `extract_cluster_parameters` are imported by the script from
  `modules.helperFunctions`, a module of this repository that is not among
  the sources; they are modelled from the specification (see their doc
  comments), faithful to the call sites visible in `createDataset.py`.
-/

set_option autoImplicit false

namespace CreateDataset

/-- Exception classes the embedded code can raise.  `typeError`,
`attributeError`, `keyError` and `indexError` are the Python built-ins;
`invalidArgument` is the specification's name for the error the (modelled)
feature extractor raises on a degenerate cluster. -/
inductive PyExc
  | typeError
  | attributeError
  | keyError
  | indexError
  | invalidArgument
  deriving DecidableEq, Repr

/-- One LIDAR return: xyz position and intensity (one row of the `(n × 4)`
numpy arrays the script passes around). -/
structure Point4 where
  x : ℚ
  y : ℚ
  z : ℚ
  intensity : ℚ
  deriving DecidableEq, Repr

/-- A triple of coordinates (used for a box's center and dimensions). -/
structure XYZ where
  x : ℚ
  y : ℚ
  z : ℚ
  deriving DecidableEq, Repr

/-- A labelled 3D bounding box (a Waymo pcl label).  The yaw rotation about
z is represented by the cosine/sine pair of the heading angle, so that the
box-local membership test stays inside `ℚ`. -/
structure BBox where
  id : String
  type : ℤ
  center : XYZ
  dimensions : XYZ
  heading_cos : ℚ
  heading_sin : ℚ
  deriving DecidableEq, Repr

/-- Geometric volume of a box from its `dimensions`, as the spec's
`BoundingBox` glossary defines it. -/
def BBox.volume (b : BBox) : ℚ :=
  b.dimensions.x * b.dimensions.y * b.dimensions.z

/-! ### Python dicts as insertion-ordered association lists -/

/-- `d[k]` lookup: the value stored at key `k`, if present. -/
def dictFind? {β : Type} (d : List (String × β)) (k : String) : Option β :=
  match d with
  | [] => none
  | (k', v) :: rest => if k' = k then some v else dictFind? rest k

/-- `d[k] = v` assignment: overwrite the value at an existing key in place,
otherwise append the new entry (Python dicts preserve insertion order). -/
def dictSet {β : Type} (d : List (String × β)) (k : String) (v : β) :
    List (String × β) :=
  match d with
  | [] => [(k, v)]
  | (k', v') :: rest =>
      if k' = k then (k', v) :: rest else (k', v') :: dictSet rest k v

/-- `d.keys()`, in insertion order. -/
def dictKeys {β : Type} (d : List (String × β)) : List String :=
  d.map (·.1)

/-! ### Ground-plane filtering -/

/-- Modelled from the spec: `remove_groundplane` is defined in
`modules/helperFunctions.py`, which is not among the sources.  §4.1 requires
a deterministic height-based ground model whose output is a sub-multiset of
the input; the ground height is the parameter `t` (the threshold the spec's
§8 quantifies over): a point survives exactly when its z coordinate lies
above `t`. -/
def remove_groundplane (t : ℚ) (pcl : List Point4) : List Point4 :=
  pcl.filter (fun p => decide (t < p.z))

/-- `DatasetCreator.filterPcl` (createDataset.py lines 72–79): converts the
input to a fresh array (`np.array([list(pt) for pt in pcl])`, the identity
on the point values) and removes the ground plane. -/
def filterPcl (t : ℚ) (pcl : List Point4) : List Point4 :=
  remove_groundplane t (pcl.map (fun pt => pt))

/-! ### Clustering by bounding box -/

/-- Modelled from the spec: `get_pts_in_bbox` is defined in
`modules/helperFunctions.py`, which is not among the sources.  §4.2:
translate the point into the box-local frame using the box's center and
heading (yaw about z), then test each axis bound against the
half-dimensions. -/
def inBBox (label : BBox) (p : Point4) : Bool :=
  let dx := p.x - label.center.x
  let dy := p.y - label.center.y
  let dz := p.z - label.center.z
  let lx := label.heading_cos * dx + label.heading_sin * dy
  let ly := label.heading_cos * dy - label.heading_sin * dx
  decide (|lx| ≤ label.dimensions.x / 2) &&
    decide (|ly| ≤ label.dimensions.y / 2) &&
    decide (|dz| ≤ label.dimensions.z / 2)

/-- Modelled from the spec (see `inBBox`): the sub-cloud of `pcl` lying
inside the box, in cloud order. -/
def get_pts_in_bbox (pcl : List Point4) (label : BBox) : List Point4 :=
  pcl.filter (inBBox label)

/-- One iteration of the loop in `DatasetCreator.clusterByBBox`
(createDataset.py lines 100–116): extract the in-box points; store the
cluster under the box's id when it has at least `thresh` points
(`obj_pcls[label.id] = cluster`), and store `None` (embedded as `none`)
otherwise (`obj_pcls[label.id] = None`). -/
def clusterStep (pcl : List Point4) (thresh : ℕ)
    (obj_pcls : List (String × Option (List Point4))) (label : BBox) :
    List (String × Option (List Point4)) :=
  let cluster := get_pts_in_bbox pcl label
  if thresh ≤ cluster.length then dictSet obj_pcls label.id (some cluster)
  else dictSet obj_pcls label.id none

/-- `DatasetCreator.clusterByBBox` (createDataset.py lines 81–120): run the
loop over the boxes in order, starting from the empty dict.  Never
raises. -/
def clusterByBBox (pcl : List Point4) (bboxes : List BBox) (thresh : ℕ) :
    List (String × Option (List Point4)) :=
  bboxes.foldl (clusterStep pcl thresh) []

/-- `clusterByBBox` at its default threshold `thresh=5`. -/
def clusterByBBoxD (pcl : List Point4) (bboxes : List BBox) :
    List (String × Option (List Point4)) :=
  clusterByBBox pcl bboxes 5

/-! ### Feature extraction -/

/-- Maximum of `f` over a cluster (0 on the empty cluster, which the callers
below rule out). -/
def axisMax (f : Point4 → ℚ) : List Point4 → ℚ
  | [] => 0
  | p :: ps => ps.foldl (fun m q => max m (f q)) (f p)

/-- Minimum of `f` over a cluster (0 on the empty cluster). -/
def axisMin (f : Point4 → ℚ) : List Point4 → ℚ
  | [] => 0
  | p :: ps => ps.foldl (fun m q => min m (f q)) (f p)

/-- Extent of the cluster along the axis measured by `f`. -/
def extent (f : Point4 → ℚ) (pts : List Point4) : ℚ :=
  axisMax f pts - axisMin f pts

/-- Mean of `f` over the cluster. -/
def centroid (f : Point4 → ℚ) (pts : List Point4) : ℚ :=
  (pts.map f).sum / pts.length

/-- Volume of the cluster's own axis-aligned bounding extent. -/
def extentVolume (pts : List Point4) : ℚ :=
  extent (·.x) pts * extent (·.y) pts * extent (·.z) pts

/-- Modelled from the spec: `extract_cluster_parameters` is defined in
`modules/helperFunctions.py`, which is not among the sources.  §4.3: the
parameter vector derives geometric statistics from the cluster's points —
extents per axis, centroid, count — with index 7 (0-based) the density
(points per cubic meter), and empty clusters rejected as the spec's
`InvalidArgument` (§4.3 precondition, §7).  §7 also requires a non-positive
volume to be detected before the density division as `InvalidArgument`,
never yielding an infinite/NaN density.  The call site
(createDataset.py line 146) passes only the cluster array — no bounding
box — so the only volume available for the density is the cluster's own
extent volume. -/
def extract_cluster_parameters (pts : List Point4) : Except PyExc (List ℚ) :=
  if pts.isEmpty then .error .invalidArgument
  else
    let vol := extentVolume pts
    if vol ≤ 0 then .error .invalidArgument
    else
      .ok [extent (·.x) pts, extent (·.y) pts, extent (·.z) pts,
           centroid (·.x) pts, centroid (·.y) pts, centroid (·.z) pts,
           (pts.length : ℚ), (pts.length : ℚ) / vol]

/-- The `Features` record the script fills in `computeClusterMetadata`
(`Features` itself comes from `modules.helperFunctions`; its fields are
exactly the ones assigned at createDataset.py lines 142–146). -/
structure Features where
  cluster_id : String
  frame_id : ℤ
  cls : ℤ
  cnt : ℕ
  parameters : List ℚ
  deriving DecidableEq, Repr

/-- The runtime value passed to `computeClusterMetadata` as `cluster`:
Python `None`, a numpy array, or a plain Python list (the type its
docstring documents). -/
inductive ClusterArg
  | pyNone
  | npArray (pts : List Point4)
  | pyList (pts : List Point4)
  deriving DecidableEq, Repr

/-- `np.array(cluster)`: the point rows of the argument (never raises for
these argument shapes). -/
def ClusterArg.toArray : ClusterArg → List Point4
  | pyNone => []
  | npArray pts => pts
  | pyList pts => pts

/-- `cluster.shape[0]`: numpy arrays expose `.shape`; Python `list`s do
not, so the attribute access fails on them (`none`). -/
def ClusterArg.shapeZero? : ClusterArg → Option ℕ
  | npArray pts => some pts.length
  | _ => none

/-- `DatasetCreator.computeClusterMetadata` (createDataset.py lines
122–149): `None` is rejected with `TypeError` (line 136); the argument is
converted with `np.array` (line 139); the record's count is read from the
*original* argument's `.shape[0]` (line 145), an `AttributeError` when the
argument is a plain list; the parameter vector is computed from the
converted array (line 146). -/
def computeClusterMetadata (cluster : ClusterArg) (bbox : BBox)
    (frame_id : ℤ) : Except PyExc Features :=
  if cluster = ClusterArg.pyNone then .error .typeError
  else
    let np_cluster := cluster.toArray
    match cluster.shapeZero? with
    | none => .error .attributeError
    | some cnt =>
      match extract_cluster_parameters np_cluster with
      | .error e => .error e
      | .ok params =>
          .ok { cluster_id := bbox.id, frame_id := frame_id,
                cls := bbox.type, cnt := cnt, parameters := params }

/-- The density the spec's §4.3 prescribes for `features[7]`, stated in the
spec's own words: the cluster's point count divided by the box's geometric
volume from `BoundingBox.dimensions`.  Named definition for comparison with
the density the code computes. -/
def specDensity (point_count : ℕ) (box : BBox) : ℚ :=
  (point_count : ℚ) / box.volume

/-! ### Quality filtering -/

/-- The loop body of `filterMetadata` (createDataset.py lines 173–178),
threading the two result containers: for each record, read
`c.parameters[7]` (an `IndexError` when the vector is shorter than 8); when
it exceeds the threshold, copy the record's cluster out of `clusters` (a
`KeyError` when the id is absent) and append the record. -/
def fmGo (clusters : List (String × List Point4)) (thresh : ℚ) :
    List Features → List Features → List (String × List Point4) →
    Except PyExc (List Features × List (String × List Point4))
  | [], acc_m, acc_c => .ok (acc_m, acc_c)
  | c :: rest, acc_m, acc_c =>
    match c.parameters[7]? with
    | none => .error .indexError
    | some d =>
      if thresh < d then
        match dictFind? clusters c.cluster_id with
        | none => .error .keyError
        | some cl =>
            fmGo clusters thresh rest (acc_m ++ [c])
              (dictSet acc_c c.cluster_id cl)
      else fmGo clusters thresh rest acc_m acc_c

/-- `DatasetCreator.filterMetadata` (createDataset.py lines 151–183): keep
the records whose 8th parameter (density) exceeds `thresh`, together with
the mapping of their clusters. -/
def filterMetadata (metadata : List Features)
    (clusters : List (String × List Point4)) (thresh : ℚ) :
    Except PyExc (List Features × List (String × List Point4)) :=
  fmGo clusters thresh metadata [] []

/-- `filterMetadata` at its default threshold `thresh=20`. -/
def filterMetadataD (metadata : List Features)
    (clusters : List (String × List Point4)) :
    Except PyExc (List Features × List (String × List Point4)) :=
  filterMetadata metadata clusters 20

/-! ### Frame orchestration -/

/-- The list comprehension at createDataset.py lines 217–218:
`[computeClusterMetadata(clusters[b.id], b, frame_id) for b in bboxes if
clusters[b.id] is not None]` — a missing key is a `KeyError`, a `None`
entry is skipped, and extraction errors propagate. -/
def collectMetadata (clusters : List (String × Option (List Point4)))
    (frame_id : ℤ) : List BBox → Except PyExc (List Features)
  | [] => .ok []
  | b :: rest =>
    match dictFind? clusters b.id with
    | none => .error .keyError
    | some none => collectMetadata clusters frame_id rest
    | some (some c) =>
      match computeClusterMetadata (ClusterArg.npArray c) b frame_id with
      | .error e => .error e
      | .ok f =>
        match collectMetadata clusters frame_id rest with
        | .error e => .error e
        | .ok fs => .ok (f :: fs)

/-- `DatasetCreator.parseFrame` (createDataset.py lines 204–230), after the
external frame decoding (`unpack_frame`) has produced `pcl` and `bboxes`:
ground filter, cluster at the default threshold, extract features for the
boxes with a present cluster — and then line 220 calls
`self.filterMetadata(metadata)` *without* the required positional argument
`clusters`, which Python rejects with a `TypeError` before the filter body
runs.  `t` is the modelled ground height of `remove_groundplane`. -/
def parseFrame (t : ℚ) (pcl : List Point4) (bboxes : List BBox)
    (frame_id : ℤ) : Except PyExc (List Features) :=
  let pcl2 := filterPcl t pcl
  let clusters := clusterByBBoxD pcl2 bboxes
  match collectMetadata clusters frame_id bboxes with
  | .error e => .error e
  | .ok _metadata => .error .typeError

/-! ### A heap model of `filterMetadata`, for its frame property

Python passes `metadata` and `clusters` by reference; "never mutates its
inputs" is a statement about the heap.  `Heap` is a store of Python
container objects addressed by allocation index; `filterMetadataHeap` runs
the same code as `filterMetadata` but with every container read and write
going through the store, allocating the two result containers fresh. -/

/-- A Python container object: the record list or a cluster dict. -/
inductive PyObj
  | flist (items : List Features)
  | cdict (entries : List (String × List Point4))
  deriving DecidableEq, Repr

/-- A store of allocated container objects; a reference is an index. -/
abbrev Heap := List PyObj

/-- The loop `for i in range(len(metadata))` of `filterMetadata`, on the
heap: `rm`/`rc` are the references to the input record list and cluster
dict, `rfm`/`rfc` those of the freshly allocated result containers; `n`
counts the remaining iterations, `i` the current index.  Each iteration
re-reads `metadata[i]` from the store and writes only through `rfm`/`rfc`
(`filtered_clusters[...] = ...`, then `filtered_metadata.append(c)`). -/
def fmLoop (thresh : ℚ) (rm rc rfm rfc : ℕ) :
    ℕ → ℕ → Heap → Except PyExc Heap
  | 0, _, h => .ok h
  | n + 1, i, h =>
    match h[rm]? with
    | some (PyObj.flist ms) =>
      match ms[i]? with
      | none => .error .indexError
      | some c =>
        match c.parameters[7]? with
        | none => .error .indexError
        | some d =>
          if thresh < d then
            match h[rc]? with
            | some (PyObj.cdict cs) =>
              match dictFind? cs c.cluster_id with
              | none => .error .keyError
              | some cl =>
                match h[rfc]? with
                | some (PyObj.cdict fcs) =>
                  match (h.set rfc
                      (PyObj.cdict (dictSet fcs c.cluster_id cl)))[rfm]? with
                  | some (PyObj.flist fms) =>
                      fmLoop thresh rm rc rfm rfc n (i + 1)
                        ((h.set rfc
                            (PyObj.cdict (dictSet fcs c.cluster_id cl))).set
                          rfm (PyObj.flist (fms ++ [c])))
                  | _ => .error .typeError
                | _ => .error .typeError
            | _ => .error .typeError
          else fmLoop thresh rm rc rfm rfc n (i + 1) h
    | _ => .error .typeError

/-- `DatasetCreator.filterMetadata` on the heap: allocate
`filtered_metadata = []` and `filtered_clusters = {}` fresh, run the loop
over the length of the record list at `rm`, and return the final heap with
the references of the two results. -/
def filterMetadataHeap (h : Heap) (rm rc : ℕ) (thresh : ℚ) :
    Except PyExc (Heap × ℕ × ℕ) :=
  match (h ++ [PyObj.flist []] ++ [PyObj.cdict []])[rm]? with
  | some (PyObj.flist ms) =>
    match fmLoop thresh rm rc h.length (h ++ [PyObj.flist []]).length
        ms.length 0 (h ++ [PyObj.flist []] ++ [PyObj.cdict []]) with
    | .error e => .error e
    | .ok h3 => .ok (h3, h.length, (h ++ [PyObj.flist []]).length)
  | _ => .error .typeError

/-! ### Dictionary lemmas -/

theorem dictFind?_set_self {β : Type} (d : List (String × β)) (k : String)
    (v : β) : dictFind? (dictSet d k v) k = some v := by
  induction d with
  | nil => simp [dictSet, dictFind?]
  | cons p rest ih =>
      obtain ⟨k', v'⟩ := p
      by_cases h : k' = k <;> simp [dictSet, dictFind?, h, ih]

theorem dictFind?_set_ne {β : Type} (d : List (String × β)) (k k' : String)
    (v : β) (h : k ≠ k') : dictFind? (dictSet d k v) k' = dictFind? d k' := by
  induction d with
  | nil => simp [dictSet, dictFind?, h]
  | cons p rest ih =>
      obtain ⟨k₀, v₀⟩ := p
      by_cases h0 : k₀ = k <;> by_cases h1 : k₀ = k' <;>
        simp_all [dictSet, dictFind?]

theorem mem_dictKeys_set {β : Type} (d : List (String × β)) (k k' : String)
    (v : β) : k' ∈ dictKeys (dictSet d k v) ↔ k' ∈ dictKeys d ∨ k' = k := by
  induction d with
  | nil => simp [dictSet, dictKeys]
  | cons p rest ih =>
      obtain ⟨k₀, v₀⟩ := p
      by_cases h0 : k₀ = k <;> simp_all [dictSet, dictKeys]
      tauto

theorem dictFind?_isSome_of_mem_keys {β : Type} (d : List (String × β))
    (k : String) (h : k ∈ dictKeys d) : ∃ v, dictFind? d k = some v := by
  induction d with
  | nil => simp [dictKeys] at h
  | cons p rest ih =>
      obtain ⟨k₀, v₀⟩ := p
      by_cases h0 : k₀ = k
      · exact ⟨v₀, by simp [dictFind?, h0]⟩
      · simp only [dictKeys, List.map_cons, List.mem_cons] at h
        rcases h with h | h
        · exact absurd h.symm h0
        · simpa [dictFind?, h0] using ih (by simpa [dictKeys] using h)

/-! ### C7 / C8: the ground-plane filter -/

/-- C7: for every input point cloud, the ground-plane filter's output is a
sub-multiset of the input (every output point occurs in the input, with
multiplicity), and on the empty input it returns the empty output (the
embedded `filterPcl` is a total function, so no exception is raised). -/
theorem filterPcl_submultiset_and_empty (t : ℚ) (pcl : List Point4) :
    (↑(filterPcl t pcl) : Multiset Point4) ≤ ↑pcl ∧ filterPcl t [] = [] := by
  constructor
  · exact Multiset.coe_le.mpr
      (by simpa [filterPcl, remove_groundplane] using
        (List.filter_sublist pcl).subperm)
  · rfl

/-- C8: the ground-plane filter is idempotent — applying it to its own
output removes no further points.  The modelled ground strategy is
height-based (a z-threshold test per point), as the claim assumes. -/
theorem filterPcl_idempotent (t : ℚ) (pcl : List Point4) :
    filterPcl t (filterPcl t pcl) = filterPcl t pcl := by
  simp [filterPcl, remove_groundplane, List.filter_filter]

/-! ### C5: clustering -/

theorem clusterStep_eq_dictSet (pcl : List Point4) (thresh : ℕ)
    (m : List (String × Option (List Point4))) (label : BBox) :
    clusterStep pcl thresh m label =
      dictSet m label.id
        (if thresh ≤ (get_pts_in_bbox pcl label).length
         then some (get_pts_in_bbox pcl label) else none) := by
  simp only [clusterStep]
  by_cases h : thresh ≤ (get_pts_in_bbox pcl label).length <;> simp [h]

theorem clusterFoldl_find_of_not_mem (pcl : List Point4) (thresh : ℕ)
    (bs : List BBox) (m : List (String × Option (List Point4))) (k : String)
    (hk : k ∉ bs.map BBox.id) :
    dictFind? (bs.foldl (clusterStep pcl thresh) m) k = dictFind? m k := by
  induction bs generalizing m with
  | nil => rfl
  | cons a bs ih =>
      simp only [List.map_cons, List.mem_cons, not_or] at hk
      rw [List.foldl_cons, ih _ hk.2, clusterStep_eq_dictSet,
        dictFind?_set_ne _ _ _ _ (fun h => hk.1 h.symm)]

theorem clusterByBBox_go (pcl : List Point4) (thresh : ℕ) (bs : List BBox)
    (m : List (String × Option (List Point4)))
    (hnd : (bs.map BBox.id).Nodup) (b : BBox) (hb : b ∈ bs) :
    dictFind? (bs.foldl (clusterStep pcl thresh) m) b.id =
      some (if thresh ≤ (get_pts_in_bbox pcl b).length
            then some (get_pts_in_bbox pcl b) else none) := by
  induction bs generalizing m with
  | nil => cases hb
  | cons a bs ih =>
      simp only [List.map_cons, List.nodup_cons] at hnd
      rw [List.foldl_cons]
      rcases List.mem_cons.mp hb with rfl | hb
      · rw [clusterFoldl_find_of_not_mem _ _ _ _ _ hnd.1,
          clusterStep_eq_dictSet, dictFind?_set_self]
      · exact ih (clusterStep pcl thresh m a) hnd.2 hb

/-- C5: for every point cloud and box sequence (with the per-frame-unique
ids of the data model), `clusterByBBox` at its default `thresh=5` produces
a mapping with an entry for every box id; the entry is the stored `None`
(`some none`, an explicitly absent cluster, distinct from an empty one)
exactly when fewer than 5 cloud points lie in the box, and otherwise the
in-box sub-cloud itself.  The embedded function is total, so empty or
absent results raise nothing. -/
theorem clusterByBBox_entry (pcl : List Point4) (bboxes : List BBox)
    (hnd : (bboxes.map BBox.id).Nodup) (b : BBox) (hb : b ∈ bboxes) :
    dictFind? (clusterByBBoxD pcl bboxes) b.id =
      some (if 5 ≤ (get_pts_in_bbox pcl b).length
            then some (get_pts_in_bbox pcl b) else none) :=
  clusterByBBox_go pcl 5 bboxes [] hnd b hb

/-! ### Concrete fixtures for witnesses and counterexamples -/

/-- A five-point cluster spanning a 2×2×2 extent (extent volume 8). -/
def cl0 : List Point4 :=
  [⟨0,0,0,0⟩, ⟨2,0,0,0⟩, ⟨0,2,0,0⟩, ⟨0,0,2,0⟩, ⟨2,2,2,0⟩]

/-- A 2×2×2 box centred at (1,1,1) with zero heading; `cl0` lies inside. -/
def bbox0 : BBox :=
  { id := "a", type := 1, center := ⟨1,1,1⟩, dimensions := ⟨2,2,2⟩,
    heading_cos := 1, heading_sin := 0 }

/-- The same box with 4×4×4 dimensions (volume 64). -/
def bboxBig : BBox := { bbox0 with dimensions := ⟨4,4,4⟩ }

/-- The same box with a zero-volume 0×2×2 dimension triple. -/
def bboxZero : BBox := { bbox0 with dimensions := ⟨0,2,2⟩ }

/-- The record the extractor computes for `cl0` in box `"a"` at frame 0:
extents 2, centroid 4/5 per axis, 5 points, density 5/8. -/
def feat0 : Features :=
  { cluster_id := "a", frame_id := 0, cls := 1, cnt := 5,
    parameters := [2, 2, 2, 4/5, 4/5, 4/5, 5, 5/8] }

/-- A record whose density parameter 21 passes the default threshold 20. -/
def rec0 : Features :=
  { cluster_id := "a", frame_id := 0, cls := 1, cnt := 5,
    parameters := [1, 1, 1, 0, 0, 0, 5, 21] }

/-- C5 witness: a single box whose cluster has exactly 5 points (so the
entry is the present cluster itself). -/
theorem clusterByBBox_entry_witness :
    ([bbox0].map BBox.id).Nodup ∧ bbox0 ∈ [bbox0] ∧
    dictFind? (clusterByBBoxD cl0 [bbox0]) bbox0.id =
      some (if 5 ≤ (get_pts_in_bbox cl0 bbox0).length
            then some (get_pts_in_bbox cl0 bbox0) else none) :=
  ⟨by simp, by simp,
   clusterByBBox_entry cl0 [bbox0] (by simp) bbox0 (by simp)⟩

/-! ### Extraction helper lemmas -/

theorem computeClusterMetadata_npArray (pts : List Point4) (bbox : BBox)
    (fid : ℤ) :
    computeClusterMetadata (ClusterArg.npArray pts) bbox fid =
      match extract_cluster_parameters pts with
      | .error e => .error e
      | .ok params =>
          .ok { cluster_id := bbox.id, frame_id := fid, cls := bbox.type,
                cnt := pts.length, parameters := params } := rfl

theorem extract_cluster_parameters_pos (pts : List Point4) (hne : pts ≠ [])
    (hv : 0 < extentVolume pts) :
    extract_cluster_parameters pts =
      .ok [extent (·.x) pts, extent (·.y) pts, extent (·.z) pts,
           centroid (·.x) pts, centroid (·.y) pts, centroid (·.z) pts,
           (pts.length : ℚ), (pts.length : ℚ) / extentVolume pts] := by
  have h1 : pts.isEmpty = false := by simp [hne]
  have h2 : ¬ extentVolume pts ≤ 0 := not_le.mpr hv
  simp [extract_cluster_parameters, h1, h2]

/-! ### C2: extraction on absent/empty clusters -/

/-- C2 counterexample: on the absent (`None`) cluster, the code's line 136
raises `TypeError`, not the spec's `InvalidArgument`. -/
theorem none_cluster_typeError_cex :
    computeClusterMetadata ClusterArg.pyNone bbox0 0 =
      Except.error PyExc.typeError ∧
    PyExc.typeError ≠ PyExc.invalidArgument := by
  exact ⟨rfl, by decide⟩

/-- C2 (amended): an absent (`None`) cluster raises `TypeError` (line 136);
an empty cluster array raises the spec's `InvalidArgument` (in the
modelled `extract_cluster_parameters`); and no returned record ever has
`point_count = 0`. -/
theorem computeClusterMetadata_degenerate (bbox : BBox) (fid : ℤ) :
    computeClusterMetadata ClusterArg.pyNone bbox fid =
      Except.error PyExc.typeError ∧
    computeClusterMetadata (ClusterArg.npArray []) bbox fid =
      Except.error PyExc.invalidArgument ∧
    ∀ cluster f, computeClusterMetadata cluster bbox fid = Except.ok f →
      0 < f.cnt := by
  refine ⟨rfl, rfl, ?_⟩
  intro cluster f h
  cases cluster with
  | pyNone => simp [computeClusterMetadata] at h
  | pyList pts => simp [computeClusterMetadata, ClusterArg.shapeZero?] at h
  | npArray pts =>
      rw [computeClusterMetadata_npArray] at h
      cases hext : extract_cluster_parameters pts with
      | error e => rw [hext] at h; cases h
      | ok params =>
          rw [hext] at h
          cases pts with
          | nil =>
              rw [show extract_cluster_parameters [] =
                    .error PyExc.invalidArgument from rfl] at hext
              cases hext
          | cons p ps =>
              cases h
              simp

/-- Evaluation of the fixtures: `cl0` has extent volume 8. -/
theorem extentVolume_cl0 : extentVolume cl0 = 8 := by
  norm_num [extentVolume, extent, axisMax, axisMin, cl0, max_def, min_def]

/-- Evaluation of the fixtures: the parameter vector of `cl0`. -/
theorem extract_cl0 :
    extract_cluster_parameters cl0 =
      Except.ok [2, 2, 2, 4/5, 4/5, 4/5, 5, 5/8] := by
  rw [extract_cluster_parameters_pos cl0 (by simp [cl0])
    (by rw [extentVolume_cl0]; norm_num)]
  norm_num [extent, axisMax, axisMin, centroid, extentVolume, cl0,
    max_def, min_def]

/-- Evaluation of the fixtures: extracting `cl0` against any box yields the
record with `cl0`'s own parameter vector. -/
theorem compute_cl0 (bbox : BBox) (fid : ℤ) :
    computeClusterMetadata (ClusterArg.npArray cl0) bbox fid =
      Except.ok { cluster_id := bbox.id, frame_id := fid, cls := bbox.type,
                  cnt := 5, parameters := [2, 2, 2, 4/5, 4/5, 4/5, 5, 5/8] } := by
  rw [computeClusterMetadata_npArray, extract_cl0]
  rfl

/-- C2 witness: the non-degenerate cluster `cl0` yields a record, and its
`point_count` is positive. -/
theorem computeClusterMetadata_degenerate_witness :
    computeClusterMetadata (ClusterArg.npArray cl0) bbox0 0 =
      Except.ok feat0 ∧ 0 < feat0.cnt := by
  exact ⟨compute_cl0 bbox0 0,
    (computeClusterMetadata_degenerate bbox0 0).2.2
      (ClusterArg.npArray cl0) feat0 (compute_cl0 bbox0 0)⟩

/-! ### C10: point count read from the original argument -/

/-- C10: `computeClusterMetadata` reads the record's point count from the
*original* `cluster` argument (`cluster.shape[0]`, line 145), not from the
converted `np_cluster`; a plain Python list — the type the docstring
documents — has no `.shape`, so every non-`None` list input raises
`AttributeError` instead of returning a record. -/
theorem pyList_cluster_raises_attributeError (pts : List Point4)
    (bbox : BBox) (fid : ℤ) :
    computeClusterMetadata (ClusterArg.pyList pts) bbox fid =
      Except.error PyExc.attributeError := rfl

/-! ### C4: where the density feature comes from -/

/-- C4 counterexample: `cl0` (5 points, extent volume 8) in the 4×4×4 box
`bboxBig` (volume 64) extracts with `features[7] = 5/8`, not the claimed
`point_count / box_volume = 5/64`. -/
theorem density_not_box_volume_cex :
    computeClusterMetadata (ClusterArg.npArray cl0) bboxBig 0 =
      Except.ok feat0 ∧
    feat0.parameters[7]? = some (5/8) ∧
    specDensity feat0.cnt bboxBig = 5/64 ∧
    (5/8 : ℚ) ≠ 5/64 := by
  refine ⟨compute_cl0 bboxBig 0, rfl, ?_, by norm_num⟩
  norm_num [specDensity, feat0, bboxBig, bbox0, BBox.volume]

/-- C4 (amended): the extractor is called with only the cluster
(createDataset.py line 146), so the parameter vector — in particular the
density `features[7]` — does not depend on the bounding box at all; for a
successfully extracted array cluster, `features[7]` is the point count
divided by the cluster's *own* extent volume.  Holding the cluster fixed
while changing the box's dimensions therefore leaves `features[7]`
unchanged (it does not strictly decrease). -/
theorem density_from_cluster_not_box (c : ClusterArg) (b b' : BBox)
    (fid : ℤ) :
    (computeClusterMetadata c b fid).map Features.parameters =
      (computeClusterMetadata c b' fid).map Features.parameters ∧
    ∀ pts f, c = ClusterArg.npArray pts →
      computeClusterMetadata c b fid = Except.ok f →
      f.parameters[7]? = some ((pts.length : ℚ) / extentVolume pts) := by
  constructor
  · cases c with
    | pyNone => rfl
    | pyList pts => rfl
    | npArray pts =>
        rw [computeClusterMetadata_npArray, computeClusterMetadata_npArray]
        cases extract_cluster_parameters pts <;> rfl
  · rintro pts f rfl h
    rw [computeClusterMetadata_npArray] at h
    cases hext : extract_cluster_parameters pts with
    | error e => rw [hext] at h; cases h
    | ok params =>
        rw [hext] at h
        cases h
        simp only [extract_cluster_parameters] at hext
        split at hext
        · cases hext
        · split at hext
          · cases hext
          · cases hext
            rfl

/-- C4 witness: `cl0` extracted against `bbox0` and against the
larger-volume `bboxBig` gives the same parameter vector, with
`features[7] = point_count / cluster extent volume`. -/
theorem density_from_cluster_not_box_witness :
    (computeClusterMetadata (ClusterArg.npArray cl0) bbox0 0).map
        Features.parameters =
      (computeClusterMetadata (ClusterArg.npArray cl0) bboxBig 0).map
        Features.parameters ∧
    feat0.parameters[7]? = some ((cl0.length : ℚ) / extentVolume cl0) :=
  ⟨(density_from_cluster_not_box (ClusterArg.npArray cl0) bbox0 bboxBig 0).1,
   (density_from_cluster_not_box (ClusterArg.npArray cl0) bbox0 bboxBig 0).2
     cl0 feat0 rfl (compute_cl0 bbox0 0)⟩

/-! ### C6: malformed (zero/negative volume) boxes -/

/-- C6 counterexample: `bboxZero` has geometric volume 0, yet extraction
of `cl0` against it is *not* rejected — it returns a record normally, so
no `InvalidArgument` is raised for the malformed box. -/
theorem zero_volume_box_undetected_cex :
    BBox.volume bboxZero = 0 ∧
    computeClusterMetadata (ClusterArg.npArray cl0) bboxZero 0 =
      Except.ok feat0 := by
  exact ⟨by norm_num [BBox.volume, bboxZero, bbox0], compute_cl0 bboxZero 0⟩

/-- C6 (amended): extraction never reads the box's dimensions, so a box of
zero or negative volume is not detected: for every such box and every
cluster with positive extent volume, extraction returns a record, and its
density feature is the rational `point_count / cluster extent volume` with
a strictly positive denominator (the modelled extractor raises
`InvalidArgument` on a non-positive cluster extent volume before dividing,
so an infinite or NaN density never arises). -/
theorem zero_volume_box_not_detected (pts : List Point4) (b : BBox)
    (fid : ℤ) (_hvol : b.volume ≤ 0) (hne : pts ≠ [])
    (hpos : 0 < extentVolume pts) :
    computeClusterMetadata (ClusterArg.npArray pts) b fid =
      Except.ok { cluster_id := b.id, frame_id := fid, cls := b.type,
                  cnt := pts.length,
                  parameters :=
                    [extent (·.x) pts, extent (·.y) pts, extent (·.z) pts,
                     centroid (·.x) pts, centroid (·.y) pts,
                     centroid (·.z) pts, (pts.length : ℚ),
                     (pts.length : ℚ) / extentVolume pts] } := by
  rw [computeClusterMetadata_npArray, extract_cluster_parameters_pos pts hne hpos]

/-- C6 witness: the zero-volume `bboxZero` with the cluster `cl0`. -/
theorem zero_volume_box_not_detected_witness :
    BBox.volume bboxZero ≤ 0 ∧ cl0 ≠ [] ∧ 0 < extentVolume cl0 ∧
    computeClusterMetadata (ClusterArg.npArray cl0) bboxZero 0 =
      Except.ok { cluster_id := bboxZero.id, frame_id := 0,
                  cls := bboxZero.type, cnt := cl0.length,
                  parameters :=
                    [extent (·.x) cl0, extent (·.y) cl0, extent (·.z) cl0,
                     centroid (·.x) cl0, centroid (·.y) cl0,
                     centroid (·.z) cl0, (cl0.length : ℚ),
                     (cl0.length : ℚ) / extentVolume cl0] } :=
  ⟨by norm_num [BBox.volume, bboxZero, bbox0], by simp [cl0],
   by rw [extentVolume_cl0]; norm_num,
   zero_volume_box_not_detected cl0 bboxZero 0
     (by norm_num [BBox.volume, bboxZero, bbox0]) (by simp [cl0])
     (by rw [extentVolume_cl0]; norm_num)⟩

/-! ### C3: the quality filter -/

/-- C3 counterexample: a record that passes the density threshold but whose
cluster id is missing from the mapping makes `filterMetadata` raise
`KeyError` (the unguarded `clusters[c.cluster_id]` at line 177) instead of
returning the filtered pairs the claim describes. -/
theorem filterMetadata_keyError_cex :
    rec0.parameters[7]? = some 21 ∧ (20 : ℚ) < 21 ∧
    filterMetadata [rec0] [] 20 = Except.error PyExc.keyError := by
  refine ⟨rfl, by norm_num, ?_⟩
  simp [filterMetadata, fmGo, rec0, dictFind?, show (20 : ℚ) < 21 by norm_num]

theorem fmGo_spec (clusters : List (String × List Point4)) (thresh : ℚ)
    (md : List Features) :
    (∀ c ∈ md, 8 ≤ c.parameters.length) →
    (∀ c ∈ md, thresh < c.parameters.getD 7 0 →
      c.cluster_id ∈ dictKeys clusters) →
    ∀ acc_m acc_c, ∃ fc,
      fmGo clusters thresh md acc_m acc_c =
        Except.ok
          (acc_m ++
            md.filter (fun c => decide (thresh < c.parameters.getD 7 0)), fc) ∧
      ∀ k, k ∈ dictKeys fc ↔
        k ∈ dictKeys acc_c ∨
        k ∈ (md.filter
              (fun c => decide (thresh < c.parameters.getD 7 0))).map
            Features.cluster_id := by
  induction md with
  | nil =>
      intro _ _ acc_m acc_c
      exact ⟨acc_c, by simp [fmGo]⟩
  | cons c rest ih =>
      intro h8 hin acc_m acc_c
      have h8c : 8 ≤ c.parameters.length := h8 c (by simp)
      obtain ⟨v, hv⟩ : ∃ v, c.parameters[7]? = some v := by
        cases h : c.parameters[7]? with
        | none =>
            have := List.getElem?_eq_none_iff.mp h
            omega
        | some v => exact ⟨v, rfl⟩
      have hgd : c.parameters.getD 7 0 = v := by
        rw [List.getD_eq_getElem?_getD, hv]; rfl
      by_cases hc : thresh < v
      · have hkey : c.cluster_id ∈ dictKeys clusters :=
          hin c (by simp) (by rw [hgd]; exact hc)
        obtain ⟨cl, hcl⟩ :=
          dictFind?_isSome_of_mem_keys clusters c.cluster_id hkey
        obtain ⟨fc, hfc, hkeys⟩ :=
          ih (fun d hd => h8 d (by simp [hd]))
            (fun d hd hlt => hin d (by simp [hd]) hlt)
            (acc_m ++ [c]) (dictSet acc_c c.cluster_id cl)
        have hstep : fmGo clusters thresh (c :: rest) acc_m acc_c =
            fmGo clusters thresh rest (acc_m ++ [c])
              (dictSet acc_c c.cluster_id cl) := by
          simp [fmGo, hv, hc, hcl]
        have hfilter :
            (c :: rest).filter
                (fun c => decide (thresh < c.parameters.getD 7 0)) =
              c :: rest.filter
                (fun c => decide (thresh < c.parameters.getD 7 0)) := by
          rw [List.filter_cons_of_pos]
          simp [hv, hc]
        refine ⟨fc, ?_, ?_⟩
        · rw [hstep, hfc, hfilter]
          simp
        · intro k
          rw [hkeys k, mem_dictKeys_set, hfilter]
          simp only [List.map_cons, List.mem_cons]
          tauto
      · obtain ⟨fc, hfc, hkeys⟩ :=
          ih (fun d hd => h8 d (by simp [hd]))
            (fun d hd hlt => hin d (by simp [hd]) hlt) acc_m acc_c
        have hstep : fmGo clusters thresh (c :: rest) acc_m acc_c =
            fmGo clusters thresh rest acc_m acc_c := by
          simp [fmGo, hv, hc]
        have hfilter :
            (c :: rest).filter
                (fun c => decide (thresh < c.parameters.getD 7 0)) =
              rest.filter
                (fun c => decide (thresh < c.parameters.getD 7 0)) := by
          rw [List.filter_cons_of_neg]
          simp [hv, hc]
        rw [hstep, hfilter]
        exact ⟨fc, hfc, hkeys⟩

/-- C3 (amended): for inputs satisfying the data-model invariants the
pipeline establishes — every record's parameter vector has the full 8
entries, and the cluster mapping has an entry for every record that passes
the threshold — `filterMetadata` returns exactly the input records whose
`parameters[7]` strictly exceeds `thresh` (default 20), in input order,
together with a cluster mapping whose key set is exactly the set of
surviving records' cluster ids.  Without those invariants the call instead
raises `KeyError`/`IndexError` (see the counterexample). -/
theorem filterMetadata_filters (metadata : List Features)
    (clusters : List (String × List Point4)) (thresh : ℚ)
    (h8 : ∀ c ∈ metadata, 8 ≤ c.parameters.length)
    (hin : ∀ c ∈ metadata, thresh < c.parameters.getD 7 0 →
      c.cluster_id ∈ dictKeys clusters) :
    ∃ fc,
      filterMetadata metadata clusters thresh =
        Except.ok
          (metadata.filter (fun c => decide (thresh < c.parameters.getD 7 0)),
           fc) ∧
      ∀ k, k ∈ dictKeys fc ↔
        k ∈ (metadata.filter
              (fun c => decide (thresh < c.parameters.getD 7 0))).map
            Features.cluster_id := by
  obtain ⟨fc, hfc, hkeys⟩ := fmGo_spec clusters thresh metadata h8 hin [] []
  refine ⟨fc, by simpa [filterMetadata] using hfc, ?_⟩
  intro k
  rw [hkeys k]
  simp [dictKeys]

/-- C3 witness: one passing and one failing record over a two-entry
mapping. -/
theorem filterMetadata_filters_witness :
    (∀ c ∈ [rec0], 8 ≤ c.parameters.length) ∧
    (∀ c ∈ [rec0], (20 : ℚ) < c.parameters.getD 7 0 →
      c.cluster_id ∈ dictKeys [("a", cl0)]) ∧
    ∃ fc,
      filterMetadata [rec0] [("a", cl0)] 20 =
        Except.ok
          ([rec0].filter (fun c => decide ((20 : ℚ) < c.parameters.getD 7 0)),
           fc) ∧
      ∀ k, k ∈ dictKeys fc ↔
        k ∈ ([rec0].filter
              (fun c => decide ((20 : ℚ) < c.parameters.getD 7 0))).map
            Features.cluster_id := by
  refine ⟨?_, ?_, ?_⟩
  · intro c hc
    simp only [List.mem_singleton] at hc
    subst hc
    simp [rec0]
  · intro c hc _
    simp only [List.mem_singleton] at hc
    subst hc
    simp [rec0, dictKeys]
  · exact filterMetadata_filters [rec0] [("a", cl0)] 20
      (by intro c hc; simp only [List.mem_singleton] at hc; subst hc; simp [rec0])
      (by intro c hc _; simp only [List.mem_singleton] at hc; subst hc;
          simp [rec0, dictKeys])

/-! ### C9: the quality filter does not mutate its inputs -/

theorem fmLoop_frame (thresh : ℚ) (rm rc rfm rfc : ℕ) :
    ∀ (n i : ℕ) (h h' : Heap),
      fmLoop thresh rm rc rfm rfc n i h = Except.ok h' →
      ∀ r, r ≠ rfm → r ≠ rfc → h'[r]? = h[r]?
  | 0, i, h, h', hrun => by
      cases hrun
      intro r _ _
      rfl
  | n + 1, i, h, h', hrun => by
      rw [fmLoop] at hrun
      split at hrun
      · split at hrun
        · cases hrun
        · split at hrun
          · cases hrun
          · split at hrun
            · split at hrun
              · split at hrun
                · cases hrun
                · split at hrun
                  · split at hrun
                    · intro r hm hc
                      rw [fmLoop_frame thresh rm rc rfm rfc n (i + 1) _ h'
                          hrun r hm hc,
                        List.getElem?_set_ne hm.symm,
                        List.getElem?_set_ne hc.symm]
                    · cases hrun
                  · cases hrun
              · cases hrun
            · exact fmLoop_frame thresh rm rc rfm rfc n (i + 1) h h' hrun
      · cases hrun

/-- C9: `filterMetadata` never mutates its inputs.  In the heap model —
where the input record list and cluster dict are container objects passed
by reference — a successful run leaves every object that existed before the
call unchanged: the only writes go to the two freshly allocated result
containers. -/
theorem filterMetadataHeap_frame (h : Heap) (rm rc : ℕ) (thresh : ℚ)
    (h' : Heap) (rfm rfc : ℕ)
    (hrun : filterMetadataHeap h rm rc thresh = Except.ok (h', rfm, rfc)) :
    ∀ r, r < h.length → h'[r]? = h[r]? := by
  unfold filterMetadataHeap at hrun
  split at hrun
  case _ ms heq =>
    split at hrun
    · exact absurd hrun (by simp)
    case _ h3 hloop =>
      cases hrun
      intro r hr
      have h1 : r < (h ++ [PyObj.flist []]).length := by
        simp
        omega
      rw [fmLoop_frame thresh rm rc h.length (h ++ [PyObj.flist []]).length
          _ _ _ _ hloop r (by omega) (by simp; omega),
        List.getElem?_append_left h1, List.getElem?_append_left hr]
  · exact absurd hrun (by simp)

/-- C9 witness: a concrete two-object heap (the record list at reference 0,
the cluster dict at reference 1); after the call both input references
still hold their original objects. -/
theorem filterMetadataHeap_frame_witness :
    filterMetadataHeap [PyObj.flist [rec0], PyObj.cdict [("a", cl0)]] 0 1 20 =
      Except.ok
        ([PyObj.flist [rec0], PyObj.cdict [("a", cl0)],
          PyObj.flist [rec0], PyObj.cdict [("a", cl0)]], 2, 3) ∧
    ([PyObj.flist [rec0], PyObj.cdict [("a", cl0)],
      PyObj.flist [rec0], PyObj.cdict [("a", cl0)]] : Heap)[0]? =
      ([PyObj.flist [rec0], PyObj.cdict [("a", cl0)]] : Heap)[0]? ∧
    ([PyObj.flist [rec0], PyObj.cdict [("a", cl0)],
      PyObj.flist [rec0], PyObj.cdict [("a", cl0)]] : Heap)[1]? =
      ([PyObj.flist [rec0], PyObj.cdict [("a", cl0)]] : Heap)[1]? := by
  have hrun : filterMetadataHeap
      [PyObj.flist [rec0], PyObj.cdict [("a", cl0)]] 0 1 20 =
      Except.ok
        ([PyObj.flist [rec0], PyObj.cdict [("a", cl0)],
          PyObj.flist [rec0], PyObj.cdict [("a", cl0)]], 2, 3) := by
    simp [filterMetadataHeap, fmLoop, rec0, dictFind?, dictSet,
      show (20 : ℚ) < 21 by norm_num, List.set]
  refine ⟨hrun, ?_, ?_⟩
  · exact filterMetadataHeap_frame
      [PyObj.flist [rec0], PyObj.cdict [("a", cl0)]] 0 1 20 _ 2 3 hrun 0
      (by simp)
  · exact filterMetadataHeap_frame
      [PyObj.flist [rec0], PyObj.cdict [("a", cl0)]] 0 1 20 _ 2 3 hrun 1
      (by simp)

/-! ### C1: the frame pipeline -/

/-- C1: the orchestration bug.  `DatasetCreator.parseFrame` runs the ground
filter, the clusterer and — skipping boxes with an absent cluster — the
feature extractor in order, but its quality-filter call at line 220,
`self.filterMetadata(metadata)`, omits the required positional argument
`clusters`, so *every* invocation raises (a `TypeError` at that call, or an
earlier extraction error), and no quality-filtered pairs are ever
produced. -/
theorem parseFrame_always_raises (t : ℚ) (pcl : List Point4)
    (bboxes : List BBox) (fid : ℤ) :
    ∃ e, parseFrame t pcl bboxes fid = Except.error e := by
  have hdef : parseFrame t pcl bboxes fid =
      match collectMetadata (clusterByBBoxD (filterPcl t pcl) bboxes) fid
          bboxes with
      | .error e => .error e
      | .ok _ => .error .typeError := rfl
  rw [hdef]
  cases collectMetadata (clusterByBBoxD (filterPcl t pcl) bboxes) fid
      bboxes with
  | error e => exact ⟨e, rfl⟩
  | ok md => exact ⟨PyExc.typeError, rfl⟩

end CreateDataset
